import Mathlib

/-!
Shallow embedding of the torpedo repository's `k8sutils` package and the
portworx `schedops` driver registry, together with proofs of the spec's
claims about them.

The external Kubernetes API is modelled as a record of response functions
(`K8sApi`): each validator predicate consumes the responses exactly the way
the Go code consumes the client's return values.  Go `error` values from the
client are modelled as `Except String` (the `String` is the error text, which
the code inspects only via a regular-expression match in
`ValidateTerminatedDeployment`).  Go nil slices returned by the pod-resolution
helpers coincide with empty slices (both helpers build their result purely by
`append` starting from `nil`), so pod sets are plain `List Pod` and the Go
`pods == nil` test is the emptiness test.
-/

deriving instance DecidableEq for Except

namespace Torpedo

/-- OwnerReference models the `metadata.ownerReferences` entry of a resource;
the code only ever reads its `Name`. -/
structure OwnerReference where
  name : String
  deriving DecidableEq, Repr

/-- ContainerStatus models `v1.ContainerStatus` as far as the code reads it:
`running` is the Go test `c.State.Running != nil`. -/
structure ContainerStatus where
  running : Bool
  deriving DecidableEq, Repr

/-- PodStatus models the two container-status lists of `v1.PodStatus`. -/
structure PodStatus where
  initContainerStatuses : List ContainerStatus
  containerStatuses : List ContainerStatus
  deriving DecidableEq, Repr

/-- Pod models `v1.Pod` as far as the code reads it. -/
structure Pod where
  name : String
  ns : String
  ownerReferences : List OwnerReference
  status : PodStatus
  deriving DecidableEq, Repr

/-- ReplicaSet models `ext_v1beta1.ReplicaSet` as far as the code reads it. -/
structure ReplicaSet where
  name : String
  ns : String
  ownerReferences : List OwnerReference
  deriving DecidableEq, Repr

/-- DeploymentSpec models `v1beta1.DeploymentSpec`: `replicas` is the value
`*dep.Spec.Replicas` (an int32 pointer dereferenced by the code). -/
structure DeploymentSpec where
  replicas : Int
  deriving DecidableEq, Repr

/-- DeploymentStatus models the replica counters read by the code. -/
structure DeploymentStatus where
  availableReplicas : Int
  readyReplicas : Int
  deriving DecidableEq, Repr

/-- Deployment models `v1beta1.Deployment` as far as the code reads it. -/
structure Deployment where
  name : String
  ns : String
  spec : DeploymentSpec
  status : DeploymentStatus
  deriving DecidableEq, Repr

/-- ClaimPhase models `v1.PersistentVolumeClaimPhase` (`Pending`, `Bound`,
`Lost`). -/
inductive ClaimPhase where
  | pending
  | bound
  | lost
  deriving DecidableEq, Repr

/-- Rendering of a claim phase, matching Go `%v` on the phase string type. -/
def ClaimPhase.render : ClaimPhase → String
  | .pending => "Pending"
  | .bound => "Bound"
  | .lost => "Lost"

/-- Pvc models `v1.PersistentVolumeClaim` as far as the validator reads it. -/
structure Pvc where
  name : String
  ns : String
  phase : ClaimPhase
  deriving DecidableEq, Repr

/-- ConditionStatus models `v1.ConditionStatus` (`True`, `False`, `Unknown`). -/
inductive ConditionStatus where
  | conditionTrue
  | conditionFalse
  | conditionUnknown
  deriving DecidableEq, Repr

/-- NodeConditionType models `v1.NodeConditionType`; the `other` constructor
covers condition types the `switch` in `IsNodeReady` does not mention. -/
inductive NodeConditionType where
  | ready
  | outOfDisk
  | memoryPressure
  | diskPressure
  | networkUnavailable
  | inodePressure
  | other (s : String)
  deriving DecidableEq, Repr

/-- NodeCondition models `v1.NodeCondition` as far as the code reads it. -/
structure NodeCondition where
  condType : NodeConditionType
  status : ConditionStatus
  message : String
  reason : String
  deriving DecidableEq, Repr

/-- Node models `v1.Node` as far as the code reads it: labels (a Go
`map[string]string`, modelled as an association list with at most one entry
per key) and status conditions. -/
structure Node where
  name : String
  labels : List (String × String)
  conditions : List NodeCondition
  deriving DecidableEq, Repr

/-- K8sError is the sum of error values the validator predicates can return:
an error propagated from the API client (`apiErr` carries the error text), or
one of the structured error types of the package (`ErrAppNotReady`,
`ErrAppNotTerminated`, `ErrPVCNotReady`), or the formatted node-readiness
error of `IsNodeReady` (modelled structurally: it carries exactly the values
interpolated by the `fmt.Errorf` call). -/
inductive K8sError where
  | apiErr (msg : String)
  | appNotReady (id cause : String)
  | appNotTerminated (id cause : String)
  | pvcNotReady (id cause : String)
  | nodeNotReady (node : String) (condType : NodeConditionType)
      (message : String) (status : ConditionStatus) (reason : String)
  deriving DecidableEq, Repr

/-- K8sApi models the external Kubernetes API client as the family of
responses it gives to the calls the package makes.  List calls are indexed by
the namespace argument, get calls by namespace and name, exactly as in the
client interface. -/
structure K8sApi where
  getDeployment : String → String → Except String Deployment
  listReplicaSets : String → Except String (List ReplicaSet)
  listPods : String → Except String (List Pod)
  getPvc : String → String → Except String Pvc
  getStorageClass : String → Except String Unit

/-- IsPodRunning embeds the Go function of the same name: every init
container must not be in the Running state, and every regular container must
be in the Running state. -/
def IsPodRunning (pod : Pod) : Bool :=
  pod.status.initContainerStatuses.all (fun c => !c.running) &&
  pod.status.containerStatuses.all (fun c => c.running)

/-- GetReplicaSetPods embeds the Go function of the same name: list pods in
the replica set's namespace and keep, once per matching owner reference, each
pod one of whose owner references names the replica set. -/
def GetReplicaSetPods (api : K8sApi) (rSet : ReplicaSet) :
    Except String (List Pod) :=
  match api.listPods rSet.ns with
  | .error e => .error e
  | .ok pods =>
      .ok (pods.flatMap fun pod =>
        (pod.ownerReferences.filter (fun o => o.name == rSet.name)).map
          (fun _ => pod))

/-- GetDeploymentPods embeds the Go function of the same name: list replica
sets in the deployment's namespace, take the first one having an owner
reference naming the deployment and resolve its pods; when none matches,
return the empty (Go nil) pod list with no error. -/
def GetDeploymentPods (api : K8sApi) (d : Deployment) :
    Except String (List Pod) :=
  match api.listReplicaSets d.ns with
  | .error e => .error e
  | .ok rSets =>
      match rSets.find? (fun r => r.ownerReferences.any (fun o => o.name == d.name)) with
      | some rSet => GetReplicaSetPods api rSet
      | none => .ok []

/-- ValidateDeployementCheck embeds the anonymous predicate `t` that
`ValidateDeployement` passes to `task.DoRetryWithTimeout` (the Go function
name's spelling is kept).  The `pods.isEmpty` branch is the Go test
`pods == nil`: both pod-resolution helpers return a nil slice exactly when
the pod set is empty. -/
def ValidateDeployementCheck (api : K8sApi) (d : Deployment) :
    Except K8sError Unit :=
  match api.getDeployment d.ns d.name with
  | .error e => .error (.apiErr e)
  | .ok dep =>
      if dep.spec.replicas ≠ dep.status.availableReplicas then
        .error (.appNotReady dep.name
          ("Expected replicas: " ++ toString dep.spec.replicas ++
           " Available replicas: " ++ toString dep.status.availableReplicas))
      else if dep.spec.replicas ≠ dep.status.readyReplicas then
        .error (.appNotReady dep.name
          ("Expected replicas: " ++ toString dep.spec.replicas ++
           " Ready replicas: " ++ toString dep.status.readyReplicas))
      else
        match GetDeploymentPods api d with
        | .error e => .error (.appNotReady dep.name
            ("Failed to get pods for deployment. Err: " ++ e))
        | .ok pods =>
            if pods.isEmpty then
              .error (.appNotReady dep.name
                "Failed to get pods for deployment. Err: <nil>")
            else
              match pods.find? (fun p => ! IsPodRunning p) with
              | some p => .error (.appNotReady dep.name
                  ("pod: " ++ p.name ++ " is not yet ready"))
              | none => .ok ()

/-- Phrase the teardown validator's regular expression looks for. -/
def notFoundPhrase : List Char := (" not found").toList

/-- listStartsWith p s is true when p is an initial segment of s. -/
def listStartsWith : List Char → List Char → Bool
  | [], _ => true
  | _ :: _, [] => false
  | a :: as, b :: bs => a == b && listStartsWith as bs

/-- matchesNotFoundAt s i holds when the Go regular expression `.+ not found`
matches the substring of s starting before position i: position i must be
preceded by at least one character that is not a newline (`.` does not match
newline), and the phrase " not found" must start at position i. -/
def matchesNotFoundAt (s : List Char) (i : Nat) : Bool :=
  match i with
  | 0 => false
  | j + 1 =>
      (match s.get? j with
       | some c => c != '\n'
       | none => false) &&
      listStartsWith notFoundPhrase (s.drop (j + 1))

/-- matchNotFound embeds `regexp.MatchString(".+ not found", e)`: the
(unanchored) match succeeds exactly when some position of the text carries
the phrase " not found" preceded by at least one non-newline character. -/
def matchNotFound (e : String) : Bool :=
  (List.range (e.toList.length + 1)).any (matchesNotFoundAt e.toList)

/-- ValidateTerminatedDeploymentCheck embeds the anonymous predicate `t` that
`ValidateTerminatedDeployment` passes to `task.DoRetryWithTimeout`.  A get
error whose text matches `.+ not found` is converted to success; otherwise
the predicate fails while the resolved pod set is non-empty.  (The pods
message uses the pod names where Go formats the slice with `%#v`.) -/
def ValidateTerminatedDeploymentCheck (api : K8sApi) (d : Deployment) :
    Except K8sError Unit :=
  match api.getDeployment d.ns d.name with
  | .error e =>
      if matchNotFound e then .ok () else .error (.apiErr e)
  | .ok dep =>
      match GetDeploymentPods api d with
      | .error e => .error (.appNotTerminated dep.name
          ("Failed to get pods for deployment. Err: " ++ e))
      | .ok pods =>
          if pods.length > 0 then
            .error (.appNotTerminated dep.name
              ("pods: " ++ String.intercalate ", " (pods.map (fun p => p.name)) ++
               " is still present"))
          else
            .ok ()

/-- ValidatePersistentVolumeClaimCheck embeds the anonymous predicate `t`
that `ValidatePersistentVolumeClaim` passes to `task.DoRetryWithTimeout`. -/
def ValidatePersistentVolumeClaimCheck (api : K8sApi) (pvc : Pvc) :
    Except K8sError Unit :=
  match api.getPvc pvc.ns pvc.name with
  | .error e => .error (.apiErr e)
  | .ok result =>
      if result.phase = ClaimPhase.bound then
        .ok ()
      else
        .error (.pvcNotReady result.name
          ("PVC expected status: Bound PVC actual status: " ++
           result.phase.render))

/-- ValidateStorageClassCheck embeds `ValidateStorageClass`: a plain get that
propagates any error unchanged. -/
def ValidateStorageClassCheck (api : K8sApi) (name : String) :
    Except K8sError Unit :=
  match api.getStorageClass name with
  | .error e => .error (.apiErr e)
  | .ok _ => .ok ()

/-- violatesCondition embeds the body of the `switch` in `IsNodeReady`: the
Ready condition must report True, the five negative conditions must report
False, every other condition type is ignored. -/
def violatesCondition (c : NodeCondition) : Bool :=
  match c.condType with
  | .ready => c.status ≠ ConditionStatus.conditionTrue
  | .outOfDisk => c.status ≠ ConditionStatus.conditionFalse
  | .memoryPressure => c.status ≠ ConditionStatus.conditionFalse
  | .diskPressure => c.status ≠ ConditionStatus.conditionFalse
  | .networkUnavailable => c.status ≠ ConditionStatus.conditionFalse
  | .inodePressure => c.status ≠ ConditionStatus.conditionFalse
  | .other _ => false

/-- IsNodeReady embeds the Go function of the same name, applied to the
result of its single `GetNodeByName` read (the function is not wrapped in any
retry loop: it reads the node once and scans the condition list once,
returning the error for the first violating condition). -/
def IsNodeReady (name : String) (getNode : Except String Node) :
    Except K8sError Unit :=
  match getNode with
  | .error e => .error (.apiErr e)
  | .ok node =>
      match node.conditions.find? violatesCondition with
      | some c => .error (.nodeNotReady name c.condType c.message c.status c.reason)
      | none => .ok ()

end Torpedo

/-! The portworx schedops registry (`schedops.go`). -/

namespace SchedOps

/-- Driver models the `schedops.Driver` interface: three node-scoped
operations, each returning success or an error value.  The node argument is
represented by its identity (a `node.Node` value in Go). -/
structure Driver where
  disableOnNode : String → Except String Unit
  validateOnNode : String → Except String Unit
  enableOnNode : String → Except String Unit

/-- ErrNotFound models `errors.ErrNotFound` with its `ID` and `Type`
fields. -/
structure ErrNotFound where
  id : String
  rtype : String
  deriving DecidableEq, Repr

/-- Registry models the process-wide `schedOpsRegistry` map. -/
def Registry := String → Option Driver

/-- emptyRegistry models the freshly made map. -/
def emptyRegistry : Registry := fun _ => none

/-- Register embeds `schedops.Register`: store the driver under the name
(overwriting any earlier entry) and return a nil error. -/
def Register (reg : Registry) (name : String) (d : Driver) :
    Registry × Option ErrNotFound :=
  ((fun k => if k = name then some d else reg k), none)

/-- Get embeds `schedops.Get`: return the registered driver, or an
`ErrNotFound` carrying the requested name and the fixed type tag. -/
def Get (reg : Registry) (name : String) : Except ErrNotFound Driver :=
  match reg name with
  | some d => .ok d
  | none => .error { id := name, rtype := "Portworx Scheduler Operator" }

end SchedOps

/-! Label mutation on nodes (`AddLabelOnNode` / `RemoveLabelOnNode`). -/

namespace Torpedo

/-- Constant `k8sLabelUpdateMaxRetries` from the source. -/
def k8sLabelUpdateMaxRetries : Nat := 5

/-- lookupLabel models reading `node.Labels[key]` from the Go map. -/
def lookupLabel (labels : List (String × String)) (key : String) :
    Option String :=
  (labels.find? (fun p => p.1 == key)).map (fun p => p.2)

/-- setAssoc models the Go map assignment `m[key] = value`. -/
def setAssoc : List (String × String) → String → String →
    List (String × String)
  | [], key, value => [(key, value)]
  | (k, v) :: rest, key, value =>
      if k == key then (key, value) :: rest
      else (k, v) :: setAssoc rest key value

/-- removeAssoc models the Go map deletion `delete(m, key)`. -/
def removeAssoc : List (String × String) → String → List (String × String)
  | [], _ => []
  | (k, v) :: rest, key =>
      if k == key then removeAssoc rest key
      else (k, v) :: removeAssoc rest key

/-- setNodeLabel models `node.Labels[key] = value`. -/
def setNodeLabel (n : Node) (key value : String) : Node :=
  { n with labels := setAssoc n.labels key value }

/-- removeNodeLabel models `delete(node.Labels, key)`. -/
def removeNodeLabel (n : Node) (key : String) : Node :=
  { n with labels := removeAssoc n.labels key }

/-- LabelEnv models the external API as seen by the label-update loops: the
result of the node `Get` issued at the i-th loop iteration, and whether the
node `Update` issued at the i-th iteration succeeds. -/
structure LabelEnv where
  reads : Nat → Except String Node
  updateOk : Nat → Bool

/-- Attempt records one loop iteration: the fresh read it began with and the
node value it wrote with `Update`, when it attempted a write. -/
structure Attempt where
  readResult : Except String Node
  written : Option Node
  deriving DecidableEq, Repr

/-- addLabelLoop embeds the retry loop of `AddLabelOnNode`: at each iteration
re-read the node; propagate a read error; return nil when the label already
holds the value; otherwise write the freshly read node with the label set and
return nil on update success.  When the iteration budget is exhausted the Go
function returns the outer `err` variable, which still holds the nil result
of `GetK8sClient` (the loop-local `err` shadows it), hence `.ok ()`. -/
def addLabelLoop (env : LabelEnv) (key value : String) :
    Nat → Nat → Except String Unit × List Attempt
  | _, 0 => (.ok (), [])
  | i, fuel + 1 =>
      match env.reads i with
      | .error e => (.error e, [{ readResult := .error e, written := none }])
      | .ok node =>
          if lookupLabel node.labels key = some value then
            (.ok (), [{ readResult := .ok node, written := none }])
          else
            let node' := setNodeLabel node key value
            if env.updateOk i then
              (.ok (), [{ readResult := .ok node, written := some node' }])
            else
              let rest := addLabelLoop env key value (i + 1) fuel
              (rest.1, { readResult := .ok node, written := some node' } :: rest.2)

/-- AddLabelOnNode embeds the Go function of the same name (given a
successfully obtained client), returning its result and the per-iteration
trace. -/
def AddLabelOnNode (env : LabelEnv) (key value : String) :
    Except String Unit × List Attempt :=
  addLabelLoop env key value 0 k8sLabelUpdateMaxRetries

/-- removeLabelLoop embeds the retry loop of `RemoveLabelOnNode`: at each
iteration re-read the node; propagate a read error; when the key is present,
write the freshly read node with the key deleted and return nil on update
success; when the key is absent the iteration falls through to the next one
without returning.  On budget exhaustion the Go function returns the outer
(nil) `err`, as in `AddLabelOnNode`. -/
def removeLabelLoop (env : LabelEnv) (key : String) :
    Nat → Nat → Except String Unit × List Attempt
  | _, 0 => (.ok (), [])
  | i, fuel + 1 =>
      match env.reads i with
      | .error e => (.error e, [{ readResult := .error e, written := none }])
      | .ok node =>
          match lookupLabel node.labels key with
          | some _ =>
              let node' := removeNodeLabel node key
              if env.updateOk i then
                (.ok (), [{ readResult := .ok node, written := some node' }])
              else
                let rest := removeLabelLoop env key (i + 1) fuel
                (rest.1, { readResult := .ok node, written := some node' } :: rest.2)
          | none =>
              let rest := removeLabelLoop env key (i + 1) fuel
              (rest.1, { readResult := .ok node, written := none } :: rest.2)

/-- RemoveLabelOnNode embeds the Go function of the same name (given a
successfully obtained client), returning its result and the per-iteration
trace. -/
def RemoveLabelOnNode (env : LabelEnv) (key : String) :
    Except String Unit × List Attempt :=
  removeLabelLoop env key 0 k8sLabelUpdateMaxRetries

end Torpedo

/-! Theorems about the schedops registry. -/

namespace SchedOps

/-- noOpDriver is a concrete driver used to instantiate registry theorems. -/
def noOpDriver : Driver :=
  { disableOnNode := fun _ => .ok ()
    validateOnNode := fun _ => .ok ()
    enableOnNode := fun _ => .ok () }

/-- failDriver is a second, distinct concrete driver. -/
def failDriver : Driver :=
  { disableOnNode := fun _ => .error "fail"
    validateOnNode := fun _ => .error "fail"
    enableOnNode := fun _ => .error "fail" }

/-- C3: Register never returns an error; after Register(n, d1) followed by
Register(n, d2), Get(n) returns d2 (last-write-wins); and registering under a
distinct name m leaves Get(n) unaffected. -/
theorem Register_lastWriteWins (reg : Registry) (n m : String)
    (d1 d2 : Driver) :
    (Register reg n d1).2 = none ∧
    Get ((Register ((Register reg n d1).1) n d2).1) n = .ok d2 ∧
    (m ≠ n → Get ((Register reg m d2).1) n = Get reg n) := by
  refine ⟨rfl, ?_, ?_⟩
  · simp [Get, Register]
  · intro h
    simp [Get, Register, if_neg (Ne.symm h)]

/-- Witness for C3 at concrete names and drivers. -/
theorem Register_lastWriteWins_witness :
    (Register emptyRegistry "swarm" noOpDriver).2 = none ∧
    Get ((Register ((Register emptyRegistry "swarm" noOpDriver).1)
      "swarm" failDriver).1) "swarm" = .ok failDriver ∧
    Get ((Register emptyRegistry "mesos" failDriver).1) "swarm" =
      Get emptyRegistry "swarm" :=
  ⟨(Register_lastWriteWins emptyRegistry "swarm" "mesos" noOpDriver failDriver).1,
   (Register_lastWriteWins emptyRegistry "swarm" "mesos" noOpDriver failDriver).2.1,
   (Register_lastWriteWins emptyRegistry "swarm" "mesos" noOpDriver failDriver).2.2
     (by decide)⟩

/-- C4: Get on a name with no registered driver returns the not-found error
carrying the requested name and the fixed category tag (and no driver value);
on a registered name it returns the registered driver unchanged. -/
theorem Get_not_found_or_registered (reg : Registry) (n : String) :
    (reg n = none →
      Get reg n = .error { id := n, rtype := "Portworx Scheduler Operator" }) ∧
    (∀ d, reg n = some d → Get reg n = .ok d) := by
  constructor
  · intro h
    simp [Get, h]
  · intro d h
    simp [Get, h]

/-- Witness for C4: an unregistered name fails with the tagged error, a
registered one resolves to the same driver value. -/
theorem Get_not_found_or_registered_witness :
    Get emptyRegistry "dcos" =
      .error { id := "dcos", rtype := "Portworx Scheduler Operator" } ∧
    Get ((Register emptyRegistry "k8s" noOpDriver).1) "k8s" = .ok noOpDriver :=
  ⟨(Get_not_found_or_registered emptyRegistry "dcos").1 rfl,
   (Get_not_found_or_registered ((Register emptyRegistry "k8s" noOpDriver).1)
     "k8s").2 noOpDriver rfl⟩

end SchedOps

/-! Theorems about the reconciliation checks. -/

namespace Torpedo

/-- C5: the bound-check predicate succeeds exactly when the fetched claim's
phase is Bound; any other phase yields the not-yet-bound failure. -/
theorem ValidatePersistentVolumeClaimCheck_bound_iff (api : K8sApi)
    (pvc res : Pvc) (hget : api.getPvc pvc.ns pvc.name = .ok res) :
    (ValidatePersistentVolumeClaimCheck api pvc = .ok () ↔
      res.phase = ClaimPhase.bound) ∧
    (res.phase ≠ ClaimPhase.bound →
      ValidatePersistentVolumeClaimCheck api pvc =
        .error (.pvcNotReady res.name
          ("PVC expected status: Bound PVC actual status: " ++
           res.phase.render))) := by
  constructor
  · by_cases h : res.phase = ClaimPhase.bound
    · simp [ValidatePersistentVolumeClaimCheck, hget, h]
    · simp [ValidatePersistentVolumeClaimCheck, hget, h]
  · intro h
    simp [ValidatePersistentVolumeClaimCheck, hget, h]

/-- pvcBoundFixture is a bound claim used to instantiate the C5 theorem. -/
def pvcBoundFixture : Pvc := { name := "pvc1", ns := "default", phase := .bound }

/-- pvcPendingFixture is a pending claim used to instantiate the C5 theorem. -/
def pvcPendingFixture : Pvc := { name := "pvc2", ns := "default", phase := .pending }

/-- apiPvcFixture answers the claim gets for the two claim fixtures. -/
def apiPvcFixture : K8sApi :=
  { getDeployment := fun _ _ => .error "unused"
    listReplicaSets := fun _ => .ok []
    listPods := fun _ => .ok []
    getPvc := fun _ name =>
      if name = "pvc1" then .ok pvcBoundFixture else .ok pvcPendingFixture
    getStorageClass := fun _ => .ok () }

/-- Witness for C5: the bound claim passes, the pending claim fails with the
not-yet-bound error. -/
theorem ValidatePersistentVolumeClaimCheck_bound_iff_witness :
    ValidatePersistentVolumeClaimCheck apiPvcFixture pvcBoundFixture = .ok () ∧
    ValidatePersistentVolumeClaimCheck apiPvcFixture pvcPendingFixture =
      .error (.pvcNotReady "pvc2"
        "PVC expected status: Bound PVC actual status: Pending") :=
  ⟨(ValidatePersistentVolumeClaimCheck_bound_iff apiPvcFixture pvcBoundFixture
      pvcBoundFixture rfl).1.mpr rfl,
   (ValidatePersistentVolumeClaimCheck_bound_iff apiPvcFixture pvcPendingFixture
      pvcPendingFixture rfl).2 (by decide)⟩

/-- C10: a pod with empty init-container and regular-container status lists
is reported as fully running by IsPodRunning. -/
theorem IsPodRunning_empty_statuses (pod : Pod)
    (h1 : pod.status.initContainerStatuses = [])
    (h2 : pod.status.containerStatuses = []) :
    IsPodRunning pod = true := by
  simp [IsPodRunning, h1, h2]

/-- statuslessPodFixture has empty status lists, as for a pod whose
controller has reported no container statuses yet. -/
def statuslessPodFixture : Pod :=
  { name := "p0", ns := "default", ownerReferences := []
    status := { initContainerStatuses := [], containerStatuses := [] } }

/-- Witness for C10 at the concrete status-less pod. -/
theorem IsPodRunning_empty_statuses_witness :
    IsPodRunning statuslessPodFixture = true :=
  IsPodRunning_empty_statuses statuslessPodFixture rfl rfl

/-- C6: given a successful node read, IsNodeReady succeeds exactly when no
condition in the node's list violates its required status (Ready must be
True, the five negative conditions must be False, all other condition types
impose no constraint); when some condition violates, the returned error names
the first violating condition's type, message, status and reason. -/
theorem IsNodeReady_conditions (name : String) (node : Node) :
    (IsNodeReady name (Except.ok node) = .ok () ↔
      ∀ c ∈ node.conditions, violatesCondition c = false) ∧
    (∀ c, node.conditions.find? violatesCondition = some c →
      c ∈ node.conditions ∧ violatesCondition c = true ∧
      IsNodeReady name (Except.ok node) =
        .error (.nodeNotReady name c.condType c.message c.status c.reason)) := by
  constructor
  · constructor
    · intro h c hc
      cases hf : node.conditions.find? violatesCondition with
      | none =>
          have := List.find?_eq_none.mp hf c hc
          simpa using this
      | some c' => simp [IsNodeReady, hf] at h
    · intro h
      have hf : node.conditions.find? violatesCondition = none :=
        List.find?_eq_none.mpr (fun x hx => by simp [h x hx])
      simp [IsNodeReady, hf]
  · intro c hf
    exact ⟨List.mem_of_find?_eq_some hf, List.find?_some hf,
      by simp [IsNodeReady, hf]⟩

/-- notReadyNodeFixture carries a Ready condition reporting False and no
other conditions. -/
def notReadyNodeFixture : Node :=
  { name := "n1", labels := []
    conditions := [{ condType := .ready, status := .conditionFalse
                     message := "kubelet stopped", reason := "KubeletDown" }] }

/-- readyNodeFixture carries Ready True and all five negative conditions
False. -/
def readyNodeFixture : Node :=
  { name := "n2", labels := []
    conditions :=
      [{ condType := .ready, status := .conditionTrue, message := "", reason := "" },
       { condType := .outOfDisk, status := .conditionFalse, message := "", reason := "" },
       { condType := .memoryPressure, status := .conditionFalse, message := "", reason := "" },
       { condType := .diskPressure, status := .conditionFalse, message := "", reason := "" },
       { condType := .networkUnavailable, status := .conditionFalse, message := "", reason := "" },
       { condType := .inodePressure, status := .conditionFalse, message := "", reason := "" }] }

/-- Witness for C6: the not-ready node yields the error naming the Ready
condition's fields; the healthy node yields no error. -/
theorem IsNodeReady_conditions_witness :
    IsNodeReady "n1" (Except.ok notReadyNodeFixture) =
      .error (.nodeNotReady "n1" NodeConditionType.ready "kubelet stopped"
        ConditionStatus.conditionFalse "KubeletDown") ∧
    IsNodeReady "n2" (Except.ok readyNodeFixture) = .ok () :=
  ⟨((IsNodeReady_conditions "n1" notReadyNodeFixture).2 _ rfl).2.2,
   (IsNodeReady_conditions "n2" readyNodeFixture).1.mpr (by decide)⟩

end Torpedo

namespace Torpedo

/-- depZeroFixture is a deployment scaled to zero replicas whose status
counters match its desired count. -/
def depZeroFixture : Deployment :=
  { name := "d0", ns := "default"
    spec := { replicas := 0 }
    status := { availableReplicas := 0, readyReplicas := 0 } }

/-- apiNoPodsFixture answers the deployment get successfully and reports no
replica sets and no pods. -/
def apiNoPodsFixture : K8sApi :=
  { getDeployment := fun _ _ => .ok depZeroFixture
    listReplicaSets := fun _ => .ok []
    listPods := fun _ => .ok []
    getPvc := fun _ _ => .error "unused"
    getStorageClass := fun _ => .ok () }

/-- C1 counterexample: for the zero-replica deployment both replica counters
equal the desired count and the resolved pod set is empty (so every resolved
pod is vacuously fully running), yet the readiness predicate returns a
failure, because the code treats a nil pod set as not ready.  This refutes
the claim that the predicate succeeds exactly when the replica counts match
and every resolved pod is fully running. -/
theorem ValidateDeployementCheck_empty_pods_counterexample :
    apiNoPodsFixture.getDeployment depZeroFixture.ns depZeroFixture.name =
      .ok depZeroFixture ∧
    depZeroFixture.spec.replicas = depZeroFixture.status.availableReplicas ∧
    depZeroFixture.spec.replicas = depZeroFixture.status.readyReplicas ∧
    GetDeploymentPods apiNoPodsFixture depZeroFixture = .ok [] ∧
    ValidateDeployementCheck apiNoPodsFixture depZeroFixture =
      .error (.appNotReady "d0"
        "Failed to get pods for deployment. Err: <nil>") := by
  refine ⟨rfl, rfl, rfl, rfl, ?_⟩
  decide

/-- C1 amended: given a successful deployment get, the readiness predicate
succeeds exactly when both replica counters equal the desired count, pod
resolution succeeds with a non-empty pod set, and every resolved pod is fully
running (an empty or failed pod resolution is a failure even when the
counters match). -/
theorem ValidateDeployementCheck_ready_iff (api : K8sApi) (d dep : Deployment)
    (hget : api.getDeployment d.ns d.name = .ok dep) :
    ValidateDeployementCheck api d = .ok () ↔
      (dep.spec.replicas = dep.status.availableReplicas ∧
       dep.spec.replicas = dep.status.readyReplicas ∧
       ∃ pods, GetDeploymentPods api d = .ok pods ∧ pods ≠ [] ∧
         ∀ p ∈ pods, IsPodRunning p = true) := by
  constructor
  · intro hok
    unfold ValidateDeployementCheck at hok
    rw [hget] at hok
    dsimp only at hok
    by_cases h1 : dep.spec.replicas = dep.status.availableReplicas
    · by_cases h2 : dep.spec.replicas = dep.status.readyReplicas
      · rw [if_neg (fun h => h h1), if_neg (fun h => h h2)] at hok
        cases hp : GetDeploymentPods api d with
        | error e => rw [hp] at hok; simp at hok
        | ok pods =>
            rw [hp] at hok
            dsimp only at hok
            cases pods with
            | nil => simp at hok
            | cons q qs =>
                rw [if_neg (by simp)] at hok
                cases hfind : (q :: qs).find? (fun p => ! IsPodRunning p) with
                | some p => rw [hfind] at hok; simp at hok
                | none =>
                    refine ⟨h1, h2, q :: qs, rfl, by simp, ?_⟩
                    intro p hpmem
                    have := List.find?_eq_none.mp hfind p hpmem
                    simpa using this
      · rw [if_neg (fun h => h h1), if_pos h2] at hok
        simp at hok
    · rw [if_pos h1] at hok
      simp at hok
  · rintro ⟨h1, h2, pods, hp, hne, hall⟩
    unfold ValidateDeployementCheck
    rw [hget]
    dsimp only
    rw [if_neg (fun h => h h1), if_neg (fun h => h h2), hp]
    dsimp only
    have hemp : pods.isEmpty = false := by
      cases pods with
      | nil => exact absurd rfl hne
      | cons q qs => rfl
    rw [if_neg (by simp [hemp])]
    have hfind : pods.find? (fun p => ! IsPodRunning p) = none :=
      List.find?_eq_none.mpr (fun x hx => by simp [hall x hx])
    rw [hfind]

/-- rsReadyFixture is the replica set owned by deployment d1. -/
def rsReadyFixture : ReplicaSet :=
  { name := "d1-rs", ns := "default", ownerReferences := [{ name := "d1" }] }

/-- podReadyFixture is a fully running pod owned by the replica set d1-rs. -/
def podReadyFixture : Pod :=
  { name := "d1-rs-pod", ns := "default"
    ownerReferences := [{ name := "d1-rs" }]
    status := { initContainerStatuses := [{ running := false }]
                containerStatuses := [{ running := true }] } }

/-- depReadyFixture is a one-replica deployment whose counters match. -/
def depReadyFixture : Deployment :=
  { name := "d1", ns := "default"
    spec := { replicas := 1 }
    status := { availableReplicas := 1, readyReplicas := 1 } }

/-- apiReadyFixture reports the ready deployment, its replica set and its
running pod. -/
def apiReadyFixture : K8sApi :=
  { getDeployment := fun _ _ => .ok depReadyFixture
    listReplicaSets := fun _ => .ok [rsReadyFixture]
    listPods := fun _ => .ok [podReadyFixture]
    getPvc := fun _ _ => .error "unused"
    getStorageClass := fun _ => .ok () }

/-- Witness for the amended C1: the converged one-replica deployment passes
the readiness predicate. -/
theorem ValidateDeployementCheck_ready_iff_witness :
    ValidateDeployementCheck apiReadyFixture depReadyFixture = .ok () :=
  (ValidateDeployementCheck_ready_iff apiReadyFixture depReadyFixture
      depReadyFixture rfl).mpr
    ⟨rfl, rfl, [podReadyFixture], by decide, by decide, by decide⟩

end Torpedo

namespace Torpedo

/-- C2: the teardown predicate returns success immediately when the
deployment get fails with an error whose text matches the not-found pattern;
given a successful get and successful pod resolution it succeeds exactly when
the resolved pod set is empty.  The remaining conjuncts show the not-found
reinterpretation happens in no other check: the deployment-readiness, claim,
storage-class and node-readiness checks propagate every get error (matching
or not) as a failure. -/
theorem ValidateTerminatedDeploymentCheck_spec (api : K8sApi)
    (d : Deployment) :
    (∀ e, api.getDeployment d.ns d.name = .error e → matchNotFound e = true →
      ValidateTerminatedDeploymentCheck api d = .ok ()) ∧
    (∀ dep pods, api.getDeployment d.ns d.name = .ok dep →
      GetDeploymentPods api d = .ok pods →
      (ValidateTerminatedDeploymentCheck api d = .ok () ↔ pods = [])) ∧
    (∀ e, api.getDeployment d.ns d.name = .error e →
      ValidateDeployementCheck api d = .error (.apiErr e)) ∧
    (∀ pvc e, api.getPvc pvc.ns pvc.name = .error e →
      ValidatePersistentVolumeClaimCheck api pvc = .error (.apiErr e)) ∧
    (∀ name e, api.getStorageClass name = .error e →
      ValidateStorageClassCheck api name = .error (.apiErr e)) ∧
    (∀ name e, IsNodeReady name (.error e) = .error (.apiErr e)) := by
  refine ⟨?_, ?_, ?_, ?_, ?_, ?_⟩
  · intro e hget hm
    simp [ValidateTerminatedDeploymentCheck, hget, hm]
  · intro dep pods hget hp
    cases pods with
    | nil => simp [ValidateTerminatedDeploymentCheck, hget, hp]
    | cons q qs => simp [ValidateTerminatedDeploymentCheck, hget, hp]
  · intro e hget
    simp [ValidateDeployementCheck, hget]
  · intro pvc e hget
    simp [ValidatePersistentVolumeClaimCheck, hget]
  · intro name e hget
    simp [ValidateStorageClassCheck, hget]
  · intro name e
    simp [IsNodeReady]

/-- depGoneFixture is the deployment whose external representation is
absent. -/
def depGoneFixture : Deployment :=
  { name := "d2", ns := "default"
    spec := { replicas := 1 }
    status := { availableReplicas := 1, readyReplicas := 1 } }

/-- pvcGoneFixture is a claim whose get fails with a not-found text. -/
def pvcGoneFixture : Pvc := { name := "pvc3", ns := "default", phase := .pending }

/-- apiGoneFixture fails every get with a not-found error text. -/
def apiGoneFixture : K8sApi :=
  { getDeployment := fun _ _ => .error "deployments.extensions d2 not found"
    listReplicaSets := fun _ => .ok []
    listPods := fun _ => .ok []
    getPvc := fun _ _ => .error "persistentvolumeclaims pvc3 not found"
    getStorageClass := fun _ => .error "storageclasses.storage sc not found" }

/-- Witness for C2: the absent deployment passes the teardown predicate, but
the same not-found text makes the readiness and claim checks fail. -/
theorem ValidateTerminatedDeploymentCheck_spec_witness :
    ValidateTerminatedDeploymentCheck apiGoneFixture depGoneFixture = .ok () ∧
    ValidateDeployementCheck apiGoneFixture depGoneFixture =
      .error (.apiErr "deployments.extensions d2 not found") ∧
    ValidatePersistentVolumeClaimCheck apiGoneFixture pvcGoneFixture =
      .error (.apiErr "persistentvolumeclaims pvc3 not found") :=
  ⟨(ValidateTerminatedDeploymentCheck_spec apiGoneFixture depGoneFixture).1
      "deployments.extensions d2 not found" rfl (by decide),
   (ValidateTerminatedDeploymentCheck_spec apiGoneFixture depGoneFixture).2.2.1
      "deployments.extensions d2 not found" rfl,
   (ValidateTerminatedDeploymentCheck_spec apiGoneFixture depGoneFixture).2.2.2.1
      pvcGoneFixture "persistentvolumeclaims pvc3 not found" rfl⟩

/-- C7: given a successful replica-set list, pod resolution for a deployment
returns the empty pod set with no error when no replica set carries an owner
reference naming the deployment; when the scan finds a replica set owned by
the deployment, the result is that replica set's pod resolution; and given a
successful pod list, a replica set's pod resolution succeeds and contains
exactly the pods one of whose owner references names the replica set. -/
theorem GetDeploymentPods_two_hop (api : K8sApi) (d : Deployment)
    (rss : List ReplicaSet) (hls : api.listReplicaSets d.ns = .ok rss) :
    ((∀ r ∈ rss, ∀ o ∈ r.ownerReferences, o.name ≠ d.name) →
      GetDeploymentPods api d = .ok []) ∧
    (∀ r, rss.find?
        (fun r => r.ownerReferences.any (fun o => o.name == d.name)) = some r →
      GetDeploymentPods api d = GetReplicaSetPods api r) ∧
    (∀ r pods, api.listPods r.ns = .ok pods →
      ∃ res, GetReplicaSetPods api r = .ok res ∧
        ∀ p, p ∈ res ↔ (p ∈ pods ∧ ∃ o ∈ p.ownerReferences, o.name = r.name)) := by
  refine ⟨?_, ?_, ?_⟩
  · intro h
    have hf : rss.find?
        (fun r => r.ownerReferences.any (fun o => o.name == d.name)) = none := by
      refine List.find?_eq_none.mpr (fun r hr => ?_)
      simp only [List.any_eq_true, beq_iff_eq, not_exists]
      intro o
      exact fun ho => absurd ho.2 (h r hr o ho.1)
    simp [GetDeploymentPods, hls, hf]
  · intro r hf
    simp [GetDeploymentPods, hls, hf]
  · intro r pods hp
    refine ⟨pods.flatMap fun pod =>
        (pod.ownerReferences.filter (fun o => o.name == r.name)).map
          (fun _ => pod), ?_, fun p => ?_⟩
    · simp [GetReplicaSetPods, hp]
    simp only [List.mem_flatMap, List.mem_map, List.mem_filter, beq_iff_eq]
    constructor
    · rintro ⟨a, ha, o, ⟨ho, hname⟩, rfl⟩
      exact ⟨ha, o, ho, hname⟩
    · rintro ⟨hpmem, o, ho, hname⟩
      exact ⟨p, hpmem, o, ⟨ho, hname⟩, rfl⟩

end Torpedo

namespace Torpedo

/-- depTwoHopFixture is the deployment D of the two-hop scenario. -/
def depTwoHopFixture : Deployment :=
  { name := "D", ns := "default"
    spec := { replicas := 1 }
    status := { availableReplicas := 1, readyReplicas := 1 } }

/-- rsUnownedFixture is a replica set owned by some other deployment. -/
def rsUnownedFixture : ReplicaSet :=
  { name := "other-rs", ns := "default"
    ownerReferences := [{ name := "otherdep" }] }

/-- rsOwnedFixture is a replica set owned by deployment D. -/
def rsOwnedFixture : ReplicaSet :=
  { name := "D-rs", ns := "default", ownerReferences := [{ name := "D" }] }

/-- podOwnedFixture is a pod owned by replica set D-rs. -/
def podOwnedFixture : Pod :=
  { name := "D-rs-p", ns := "default"
    ownerReferences := [{ name := "D-rs" }]
    status := { initContainerStatuses := [], containerStatuses := [] } }

/-- apiUnownedFixture reports only the foreign replica set. -/
def apiUnownedFixture : K8sApi :=
  { getDeployment := fun _ _ => .error "unused"
    listReplicaSets := fun _ => .ok [rsUnownedFixture]
    listPods := fun _ => .ok []
    getPvc := fun _ _ => .error "unused"
    getStorageClass := fun _ => .ok () }

/-- apiOwnedFixture reports the foreign and the owned replica set and the
owned pod. -/
def apiOwnedFixture : K8sApi :=
  { getDeployment := fun _ _ => .error "unused"
    listReplicaSets := fun _ => .ok [rsUnownedFixture, rsOwnedFixture]
    listPods := fun _ => .ok [podOwnedFixture]
    getPvc := fun _ _ => .error "unused"
    getStorageClass := fun _ => .ok () }

/-- Witness for C7: with no replica set owned by D, pod resolution returns
the empty set with no error; with an owned replica set, resolution goes
through that replica set, and its pod resolution contains exactly the pods
whose owner references name it. -/
theorem GetDeploymentPods_two_hop_witness :
    GetDeploymentPods apiUnownedFixture depTwoHopFixture = .ok [] ∧
    GetDeploymentPods apiOwnedFixture depTwoHopFixture =
      GetReplicaSetPods apiOwnedFixture rsOwnedFixture ∧
    (∃ res, GetReplicaSetPods apiOwnedFixture rsOwnedFixture = .ok res ∧
      ∀ p, p ∈ res ↔
        (p ∈ [podOwnedFixture] ∧
         ∃ o ∈ p.ownerReferences, o.name = rsOwnedFixture.name)) :=
  ⟨(GetDeploymentPods_two_hop apiUnownedFixture depTwoHopFixture
      [rsUnownedFixture] rfl).1 (by decide),
   (GetDeploymentPods_two_hop apiOwnedFixture depTwoHopFixture
      [rsUnownedFixture, rsOwnedFixture] rfl).2.1 rsOwnedFixture (by decide),
   (GetDeploymentPods_two_hop apiOwnedFixture depTwoHopFixture
      [rsUnownedFixture, rsOwnedFixture] rfl).2.2 rsOwnedFixture
      [podOwnedFixture] rfl⟩

/-- addLabelLoop_props: for every fuel and start index, the trace of the
add-label loop has at most `fuel` entries, the j-th entry's read is the fresh
read issued at iteration start+j, and every written node is the same
iteration's freshly read node with the label set. -/
theorem addLabelLoop_props (env : LabelEnv) (key value : String) :
    ∀ fuel i,
      (addLabelLoop env key value i fuel).2.length ≤ fuel ∧
      (∀ j a, (addLabelLoop env key value i fuel).2.get? j = some a →
        a.readResult = env.reads (i + j)) ∧
      (∀ a ∈ (addLabelLoop env key value i fuel).2, ∀ n, a.written = some n →
        ∃ node, a.readResult = .ok node ∧ n = setNodeLabel node key value) := by
  intro fuel
  induction fuel with
  | zero =>
      intro i
      refine ⟨Nat.le_refl 0, ?_, ?_⟩
      · intro j a h
        simp [addLabelLoop] at h
      · intro a ha
        simp [addLabelLoop] at ha
  | succ fuel ih =>
      intro i
      cases hread : env.reads i with
      | error e =>
          refine ⟨?_, ?_, ?_⟩
          · simp [addLabelLoop, hread]
          · intro j a h
            simp only [addLabelLoop, hread] at h
            cases j with
            | zero =>
                simp at h
                subst h
                simp [hread]
            | succ k => simp at h
          · intro a ha n hn
            simp only [addLabelLoop, hread] at ha
            simp at ha
            subst ha
            simp at hn
      | ok node =>
          by_cases hlook : lookupLabel node.labels key = some value
          · refine ⟨?_, ?_, ?_⟩
            · simp [addLabelLoop, hread, hlook]
            · intro j a h
              simp only [addLabelLoop, hread, if_pos hlook] at h
              cases j with
              | zero =>
                  simp at h
                  subst h
                  simp [hread]
              | succ k => simp at h
            · intro a ha n hn
              simp only [addLabelLoop, hread, if_pos hlook] at ha
              simp at ha
              subst ha
              simp at hn
          · by_cases hupd : env.updateOk i = true
            · refine ⟨?_, ?_, ?_⟩
              · simp [addLabelLoop, hread, hlook, hupd]
              · intro j a h
                simp only [addLabelLoop, hread, if_neg hlook, if_pos hupd] at h
                cases j with
                | zero =>
                    simp at h
                    subst h
                    simp [hread]
                | succ k => simp at h
              · intro a ha n hn
                simp only [addLabelLoop, hread, if_neg hlook, if_pos hupd] at ha
                simp at ha
                subst ha
                simp at hn
                exact ⟨node, rfl, hn.symm⟩
            · have hupd' : env.updateOk i = false := by
                cases hu : env.updateOk i with
                | false => rfl
                | true => exact absurd hu hupd
              refine ⟨?_, ?_, ?_⟩
              · simp only [addLabelLoop, hread, if_neg hlook, hupd']
                simp only [Bool.false_eq_true, if_false, List.length_cons]
                exact Nat.succ_le_succ (ih (i + 1)).1
              · intro j a h
                simp only [addLabelLoop, hread, if_neg hlook, hupd'] at h
                simp only [Bool.false_eq_true, if_false] at h
                cases j with
                | zero =>
                    simp at h
                    subst h
                    simp [hread]
                | succ k =>
                    simp only [List.get?] at h
                    have := (ih (i + 1)).2.1 k a h
                    rw [this]
                    congr 1
                    omega
              · intro a ha n hn
                simp only [addLabelLoop, hread, if_neg hlook, hupd'] at ha
                simp only [Bool.false_eq_true, if_false, List.mem_cons] at ha
                cases ha with
                | inl ha =>
                    subst ha
                    simp at hn
                    exact ⟨node, rfl, hn.symm⟩
                | inr ha => exact (ih (i + 1)).2.2 a ha n hn

end Torpedo

namespace Torpedo

/-- removeLabelLoop_props: trace bound, fresh reads and write provenance for
the remove-label loop, as in addLabelLoop_props. -/
theorem removeLabelLoop_props (env : LabelEnv) (key : String) :
    ∀ fuel i,
      (removeLabelLoop env key i fuel).2.length ≤ fuel ∧
      (∀ j a, (removeLabelLoop env key i fuel).2.get? j = some a →
        a.readResult = env.reads (i + j)) ∧
      (∀ a ∈ (removeLabelLoop env key i fuel).2, ∀ n, a.written = some n →
        ∃ node, a.readResult = .ok node ∧ n = removeNodeLabel node key) := by
  intro fuel
  induction fuel with
  | zero =>
      intro i
      refine ⟨Nat.le_refl 0, ?_, ?_⟩
      · intro j a h
        simp [removeLabelLoop] at h
      · intro a ha
        simp [removeLabelLoop] at ha
  | succ fuel ih =>
      intro i
      cases hread : env.reads i with
      | error e =>
          refine ⟨?_, ?_, ?_⟩
          · simp [removeLabelLoop, hread]
          · intro j a h
            simp only [removeLabelLoop, hread] at h
            cases j with
            | zero =>
                simp at h
                subst h
                simp [hread]
            | succ k => simp at h
          · intro a ha n hn
            simp only [removeLabelLoop, hread] at ha
            simp at ha
            subst ha
            simp at hn
      | ok node =>
          cases hlook : lookupLabel node.labels key with
          | some v =>
              by_cases hupd : env.updateOk i = true
              · refine ⟨?_, ?_, ?_⟩
                · simp [removeLabelLoop, hread, hlook, hupd]
                · intro j a h
                  simp only [removeLabelLoop, hread, hlook, if_pos hupd] at h
                  cases j with
                  | zero =>
                      simp at h
                      subst h
                      simp [hread]
                  | succ k => simp at h
                · intro a ha n hn
                  simp only [removeLabelLoop, hread, hlook, if_pos hupd] at ha
                  simp at ha
                  subst ha
                  simp at hn
                  exact ⟨node, rfl, hn.symm⟩
              · have hupd' : env.updateOk i = false := by
                  cases hu : env.updateOk i with
                  | false => rfl
                  | true => exact absurd hu hupd
                refine ⟨?_, ?_, ?_⟩
                · simp only [removeLabelLoop, hread, hlook, hupd']
                  simp only [Bool.false_eq_true, if_false, List.length_cons]
                  exact Nat.succ_le_succ (ih (i + 1)).1
                · intro j a h
                  simp only [removeLabelLoop, hread, hlook, hupd'] at h
                  simp only [Bool.false_eq_true, if_false] at h
                  cases j with
                  | zero =>
                      simp at h
                      subst h
                      simp [hread]
                  | succ k =>
                      simp only [List.get?] at h
                      have := (ih (i + 1)).2.1 k a h
                      rw [this]
                      congr 1
                      omega
                · intro a ha n hn
                  simp only [removeLabelLoop, hread, hlook, hupd'] at ha
                  simp only [Bool.false_eq_true, if_false, List.mem_cons] at ha
                  cases ha with
                  | inl ha =>
                      subst ha
                      simp at hn
                      exact ⟨node, rfl, hn.symm⟩
                  | inr ha => exact (ih (i + 1)).2.2 a ha n hn
          | none =>
              refine ⟨?_, ?_, ?_⟩
              · simp only [removeLabelLoop, hread, hlook, List.length_cons]
                exact Nat.succ_le_succ (ih (i + 1)).1
              · intro j a h
                simp only [removeLabelLoop, hread, hlook] at h
                cases j with
                | zero =>
                    simp at h
                    subst h
                    simp [hread]
                | succ k =>
                    simp only [List.get?] at h
                    have := (ih (i + 1)).2.1 k a h
                    rw [this]
                    congr 1
                    omega
              · intro a ha n hn
                simp only [removeLabelLoop, hread, hlook, List.mem_cons] at ha
                cases ha with
                | inl ha =>
                    subst ha
                    simp at hn
                | inr ha => exact (ih (i + 1)).2.2 a ha n hn

/-- C8: both label-update functions run at most k8sLabelUpdateMaxRetries (5)
iterations; the j-th iteration's read is the fresh read issued at that
iteration; and every node written by an iteration is that same iteration's
freshly read node with the label set (for add) or the key deleted (for
remove) — never a node value read in an earlier iteration. -/
theorem labelUpdate_retry_spec (env : LabelEnv) (key value : String) :
    ((AddLabelOnNode env key value).2.length ≤ k8sLabelUpdateMaxRetries ∧
     (∀ j a, (AddLabelOnNode env key value).2.get? j = some a →
       a.readResult = env.reads j) ∧
     (∀ a ∈ (AddLabelOnNode env key value).2, ∀ n, a.written = some n →
       ∃ node, a.readResult = .ok node ∧ n = setNodeLabel node key value)) ∧
    ((RemoveLabelOnNode env key).2.length ≤ k8sLabelUpdateMaxRetries ∧
     (∀ j a, (RemoveLabelOnNode env key).2.get? j = some a →
       a.readResult = env.reads j) ∧
     (∀ a ∈ (RemoveLabelOnNode env key).2, ∀ n, a.written = some n →
       ∃ node, a.readResult = .ok node ∧ n = removeNodeLabel node key)) := by
  have ha := addLabelLoop_props env key value k8sLabelUpdateMaxRetries 0
  have hr := removeLabelLoop_props env key k8sLabelUpdateMaxRetries 0
  refine ⟨⟨ha.1, ?_, ha.2.2⟩, ⟨hr.1, ?_, hr.2.2⟩⟩
  · intro j a h
    have := ha.2.1 j a h
    simpa using this
  · intro j a h
    have := hr.2.1 j a h
    simpa using this

/-- nodeLabelFixture is the node the label-loop witnesses read. -/
def nodeLabelFixture : Node :=
  { name := "worker-1", labels := [("zone", "east")], conditions := [] }

/-- envUpdateFailFixture reads the fixture node successfully on every
iteration and fails every update. -/
def envUpdateFailFixture : LabelEnv :=
  { reads := fun _ => .ok nodeLabelFixture
    updateOk := fun _ => false }

/-- attemptAddFixture is the iteration record produced by each add-label
iteration under envUpdateFailFixture. -/
def attemptAddFixture : Attempt :=
  { readResult := .ok nodeLabelFixture
    written := some (setNodeLabel nodeLabelFixture "role" "infra") }

/-- Witness for C8 at the concrete environment: the trace respects the
5-iteration bound, the first iteration's read is the fresh read at index 0,
and the iteration's written node derives from its own read. -/
theorem labelUpdate_retry_spec_witness :
    (AddLabelOnNode envUpdateFailFixture "role" "infra").2.length ≤
      k8sLabelUpdateMaxRetries ∧
    attemptAddFixture.readResult = envUpdateFailFixture.reads 0 ∧
    (∃ node, attemptAddFixture.readResult = .ok node ∧
      setNodeLabel nodeLabelFixture "role" "infra" =
        setNodeLabel node "role" "infra") :=
  ⟨(labelUpdate_retry_spec envUpdateFailFixture "role" "infra").1.1,
   (labelUpdate_retry_spec envUpdateFailFixture "role" "infra").1.2.1 0
     attemptAddFixture (by decide),
   (labelUpdate_retry_spec envUpdateFailFixture "role" "infra").1.2.2
     attemptAddFixture (by decide)
     (setNodeLabel nodeLabelFixture "role" "infra") rfl⟩

end Torpedo

namespace Torpedo

/-- addLabelLoop_ok_of_update_fail: when every read succeeds and every update
fails, the add-label loop ends with a nil error (the exhausted loop returns
the shadowed outer error, which is nil). -/
theorem addLabelLoop_ok_of_update_fail (env : LabelEnv) (key value : String)
    (hr : ∀ i, ∃ n, env.reads i = .ok n)
    (hu : ∀ i, env.updateOk i = false) :
    ∀ fuel i, (addLabelLoop env key value i fuel).1 = .ok () := by
  intro fuel
  induction fuel with
  | zero =>
      intro i
      simp [addLabelLoop]
  | succ fuel ih =>
      intro i
      obtain ⟨node, hread⟩ := hr i
      by_cases hlook : lookupLabel node.labels key = some value
      · simp [addLabelLoop, hread, hlook]
      · simp [addLabelLoop, hread, hlook, hu i, ih (i + 1)]

/-- removeLabelLoop_ok_of_update_fail: when every read succeeds and every
update fails, the remove-label loop ends with a nil error. -/
theorem removeLabelLoop_ok_of_update_fail (env : LabelEnv) (key : String)
    (hr : ∀ i, ∃ n, env.reads i = .ok n)
    (hu : ∀ i, env.updateOk i = false) :
    ∀ fuel i, (removeLabelLoop env key i fuel).1 = .ok () := by
  intro fuel
  induction fuel with
  | zero =>
      intro i
      simp [removeLabelLoop]
  | succ fuel ih =>
      intro i
      obtain ⟨node, hread⟩ := hr i
      cases hlook : lookupLabel node.labels key with
      | some v => simp [removeLabelLoop, hread, hlook, hu i, ih (i + 1)]
      | none => simp [removeLabelLoop, hread, hlook, ih (i + 1)]

/-- removeLabelLoop_absent: when every read succeeds and yields a node
without the key, the remove-label loop never attempts an update and ends
with a nil error. -/
theorem removeLabelLoop_absent (env : LabelEnv) (key : String)
    (hr : ∀ i, ∃ n, env.reads i = .ok n)
    (habs : ∀ i n, env.reads i = .ok n → lookupLabel n.labels key = none) :
    ∀ fuel i, (removeLabelLoop env key i fuel).1 = .ok () ∧
      ∀ a ∈ (removeLabelLoop env key i fuel).2, a.written = none := by
  intro fuel
  induction fuel with
  | zero =>
      intro i
      refine ⟨by simp [removeLabelLoop], ?_⟩
      intro a ha
      simp [removeLabelLoop] at ha
  | succ fuel ih =>
      intro i
      obtain ⟨node, hread⟩ := hr i
      have hlook := habs i node hread
      refine ⟨by simp [removeLabelLoop, hread, hlook, (ih (i + 1)).1], ?_⟩
      intro a ha
      simp only [removeLabelLoop, hread, hlook, List.mem_cons] at ha
      cases ha with
      | inl ha => subst ha; rfl
      | inr ha => exact (ih (i + 1)).2 a ha

/-- C9: the label-update functions swallow update failures.  When every read
succeeds and every one of the 5 update attempts fails, both functions return
a nil error; and when the key is absent on every read, RemoveLabelOnNode
attempts no update at all and returns a nil error. -/
theorem labelUpdate_swallows_update_failure (env : LabelEnv)
    (key value : String) :
    ((∀ i, ∃ n, env.reads i = .ok n) → (∀ i, env.updateOk i = false) →
      (AddLabelOnNode env key value).1 = .ok () ∧
      (RemoveLabelOnNode env key).1 = .ok ()) ∧
    ((∀ i, ∃ n, env.reads i = .ok n) →
      (∀ i n, env.reads i = .ok n → lookupLabel n.labels key = none) →
      (RemoveLabelOnNode env key).1 = .ok () ∧
      ∀ a ∈ (RemoveLabelOnNode env key).2, a.written = none) := by
  constructor
  · intro hr hu
    exact ⟨addLabelLoop_ok_of_update_fail env key value hr hu
        k8sLabelUpdateMaxRetries 0,
      removeLabelLoop_ok_of_update_fail env key hr hu
        k8sLabelUpdateMaxRetries 0⟩
  · intro hr habs
    exact ⟨(removeLabelLoop_absent env key hr habs k8sLabelUpdateMaxRetries 0).1,
      (removeLabelLoop_absent env key hr habs k8sLabelUpdateMaxRetries 0).2⟩

/-- Witness for C9: under the always-failing-update environment (whose node
does not carry the key "role"), AddLabelOnNode reports success after its 5
failed writes, and RemoveLabelOnNode reports success having never written. -/
theorem labelUpdate_swallows_update_failure_witness :
    (AddLabelOnNode envUpdateFailFixture "role" "infra").1 = .ok () ∧
    (RemoveLabelOnNode envUpdateFailFixture "role").1 = .ok () ∧
    (∀ a ∈ (RemoveLabelOnNode envUpdateFailFixture "role").2,
      a.written = none) :=
  ⟨((labelUpdate_swallows_update_failure envUpdateFailFixture "role" "infra").1
      (fun _ => ⟨nodeLabelFixture, rfl⟩) (fun _ => rfl)).1,
   ((labelUpdate_swallows_update_failure envUpdateFailFixture "role" "infra").1
      (fun _ => ⟨nodeLabelFixture, rfl⟩) (fun _ => rfl)).2,
   ((labelUpdate_swallows_update_failure envUpdateFailFixture "role" "infra").2
      (fun _ => ⟨nodeLabelFixture, rfl⟩) (fun i n h => by cases h; rfl)).2⟩

end Torpedo
